import Mathlib

/-
Verification of the kivoa-controlhub-backend job pipeline.

Shallow embedding of:
  - the SKU allocator (src/models/product.py, Category.generate_sku),
  - the bulk-create allocation transactions (src/routes/products.py),
  - the image-enrichment worker (src/workers/image_enhancement.py),
  - the catalog-sync worker (src/workers/catalog_sync.py),
  - the product status-transition route (src/routes/products.py).

Database transactions are modelled as atomic: a handler either commits one
final database value or leaves the database untouched (rollback / uncommitted
session state discarded at application-context exit).  External effects
(HTTP download, Gemini calls, S3 uploads, Shopify calls) are modelled by
explicit oracles so that a failing call corresponds to the exception paths
of the source.
-/

namespace Kivoa

/-- Left-pad a decimal string with zeros to width `w`, modelling Python's
`str.zfill` as used in `Category.generate_sku`. -/
def zfill (w : Nat) (s : String) : String :=
  if w ≤ s.length then s
  else String.mk (List.replicate (w - s.length) '0') ++ s

/-- The `categories` row, from `src/models/product.py`.  The column
`prefix` is a Lean keyword and is embedded as `pfx`. -/
structure Category where
  id : Nat
  name : String
  pfx : String
  sku_sequence_number : Nat
  deriving Repr, DecidableEq

/-- `Category.generate_sku(self, purchase_month)`: increment
`sku_sequence_number`, zero-pad it to 4 digits and build
`"{prefix}-{sequence}-{purchase_month}"`.  Returns the updated category row
together with the `(sku, sequence_number)` pair the source returns. -/
def Category.generate_sku (c : Category) (purchase_month : String) :
    Category × String × Nat :=
  let n := c.sku_sequence_number + 1
  let sequence := zfill 4 (Nat.repr n)
  let sku := c.pfx ++ "-" ++ sequence ++ "-" ++ purchase_month
  ({ c with sku_sequence_number := n }, sku, n)

/-- One bulk-create request allocates one SKU per submitted product against
the same in-session category row (`src/routes/products.py`,
`bulk_create_products`): the counter increments accumulate across the loop
and are committed together. -/
def bulkAllocate (c : Category) : List String → Category × List (String × Nat)
  | [] => (c, [])
  | m :: ms =>
    let r := c.generate_sku m
    let rest := bulkAllocate r.1 ms
    (rest.1, r.2 :: rest.2)

/-- Lifecycle of one bulk-create transaction against the shared category
row: not yet started, in progress with the snapshot its category read
returned, or committed. -/
inductive TxnPhase where
  | notStarted
  | inProgress (snapshot : Category)
  | done
  deriving Repr, DecidableEq

/-- State of several bulk-create transactions racing on one category:
the shared committed category row, the committed products
(sku, sequence number) of that category, and each transaction's purchase
months and phase. -/
structure ConcState where
  category : Category
  committed : List (String × Nat)
  txns : List (List String × TxnPhase)
  deriving Repr, DecidableEq

/-- One scheduler event: transaction `i` performs its category read, or its
commit. -/
inductive AllocEvent where
  | readCat (i : Nat)
  | commitTxn (i : Nat)
  deriving Repr, DecidableEq

/-- Interleaving semantics of the UNLOCKED code.  `readCat` is
`Category.query.filter_by(name=...).first()` (`products.py` line 146): it
snapshots the shared category row with no `with_for_update`, so nothing
blocks it while another transaction is already in progress on the same
row.  All `generate_sku` increments then run on the session snapshot
(`bulkAllocate`), and `commitTxn` is `db.session.commit()` (line 197): it
writes the session's counter value blindly over the shared row and inserts
the session's products — overwriting, not re-reading, any counter update
committed since the snapshot was taken (a lost update). -/
def concStep (s : ConcState) : AllocEvent → ConcState
  | AllocEvent.readCat i =>
    match s.txns.get? i with
    | some (months, TxnPhase.notStarted) =>
      { s with txns := s.txns.set i (months, TxnPhase.inProgress s.category) }
    | _ => s
  | AllocEvent.commitTxn i =>
    match s.txns.get? i with
    | some (months, TxnPhase.inProgress snap) =>
      { category := (bulkAllocate snap months).1,
        committed := s.committed ++ (bulkAllocate snap months).2,
        txns := s.txns.set i (months, TxnPhase.done) }
    | _ => s

/-- Run a schedule of read/commit events. -/
def runSchedule (s : ConcState) (evs : List AllocEvent) : ConcState :=
  evs.foldl concStep s

theorem bulkAllocate_counter (c : Category) (ms : List String) :
    (bulkAllocate c ms).1.sku_sequence_number =
      c.sku_sequence_number + ms.length := by
  induction ms generalizing c with
  | nil => simp [bulkAllocate]
  | cons m ms ih =>
      simp only [bulkAllocate, List.length_cons]
      rw [ih]
      simp [Category.generate_sku]
      omega

theorem bulkAllocate_seqs (c : Category) (ms : List String) :
    (bulkAllocate c ms).2.map Prod.snd =
      List.range' (c.sku_sequence_number + 1) ms.length := by
  induction ms generalizing c with
  | nil => simp [bulkAllocate]
  | cons m ms ih =>
      simp only [bulkAllocate, List.map_cons, List.length_cons]
      rw [List.range'_succ]
      congr 1
      rw [ih]
      rfl

/-- Sanity check of the interleaving machine: when the two transactions do
not overlap (each commits before the next reads), the committed sequence
numbers are the duplicate-free `[1, 2]` the spec expects, and the counter
ends at 2. -/
theorem serialized_schedule_distinct_sequences :
    (runSchedule
      ⟨⟨1, "Necklace", "NECK", 0⟩, [],
        [(["0124"], TxnPhase.notStarted), (["0224"], TxnPhase.notStarted)]⟩
      [AllocEvent.readCat 0, AllocEvent.commitTxn 0,
       AllocEvent.readCat 1, AllocEvent.commitTxn 1]).committed.map
        Prod.snd = [1, 2] ∧
    (runSchedule
      ⟨⟨1, "Necklace", "NECK", 0⟩, [],
        [(["0124"], TxnPhase.notStarted), (["0224"], TxnPhase.notStarted)]⟩
      [AllocEvent.readCat 0, AllocEvent.commitTxn 0,
       AllocEvent.readCat 1,
       AllocEvent.commitTxn 1]).category.sku_sequence_number = 2 := by
  exact ⟨by decide, rfl⟩

/-- Claim C1 fails on the code, which is the bug (the spec's stated
row-lock precondition is missing): `bulk_create_products` reads the
category with `filter_by(name=...).first()` and no `with_for_update`, and
`generate_sku` blind-writes the counter, so under the interleaving
read₁ read₂ commit₁ commit₂ two concurrent bulk creates on the same
category (counter 0, purchase months `0124` and `0224`) both commit
sequence number 1: the committed sequence numbers are `[1, 1]` for k = 2
committed allocations — a duplicate, where the claim requires exactly
`{1, 2}` — and the shared counter ends at 1, the first increment silently
lost.  The distinct purchase months keep the two SKUs distinct, so the
`sku` unique constraint does not block the second commit. -/
theorem concurrent_allocation_duplicates_sequence :
    (runSchedule
      ⟨⟨1, "Necklace", "NECK", 0⟩, [],
        [(["0124"], TxnPhase.notStarted), (["0224"], TxnPhase.notStarted)]⟩
      [AllocEvent.readCat 0, AllocEvent.readCat 1,
       AllocEvent.commitTxn 0, AllocEvent.commitTxn 1]).committed.map
        Prod.snd = [1, 1] ∧
    ¬ ((runSchedule
      ⟨⟨1, "Necklace", "NECK", 0⟩, [],
        [(["0124"], TxnPhase.notStarted), (["0224"], TxnPhase.notStarted)]⟩
      [AllocEvent.readCat 0, AllocEvent.readCat 1,
       AllocEvent.commitTxn 0, AllocEvent.commitTxn 1]).committed.map
        Prod.snd).Nodup ∧
    (runSchedule
      ⟨⟨1, "Necklace", "NECK", 0⟩, [],
        [(["0124"], TxnPhase.notStarted), (["0224"], TxnPhase.notStarted)]⟩
      [AllocEvent.readCat 0, AllocEvent.readCat 1,
       AllocEvent.commitTxn 0, AllocEvent.commitTxn 1]).committed.length
      = 2 ∧
    (runSchedule
      ⟨⟨1, "Necklace", "NECK", 0⟩, [],
        [(["0124"], TxnPhase.notStarted), (["0224"], TxnPhase.notStarted)]⟩
      [AllocEvent.readCat 0, AllocEvent.readCat 1,
       AllocEvent.commitTxn 0,
       AllocEvent.commitTxn 1]).category.sku_sequence_number = 1 ∧
    (runSchedule
      ⟨⟨1, "Necklace", "NECK", 0⟩, [],
        [(["0124"], TxnPhase.notStarted), (["0224"], TxnPhase.notStarted)]⟩
      [AllocEvent.readCat 0, AllocEvent.readCat 1,
       AllocEvent.commitTxn 0, AllocEvent.commitTxn 1]).committed.map
        Prod.fst = ["NECK-0001-0124", "NECK-0001-0224"] := by
  exact ⟨by decide, by decide, rfl, rfl, by decide⟩

/-- Claim C5: `generate_sku` increments the counter by exactly 1 and returns
the SKU `prefix ++ "-" ++ (counter zero-padded to 4) ++ "-" ++ period`
together with the new counter value; three sequential allocations for a
category with code `NECK` and counter 0 and period `0124` yield
`NECK-0001-0124`, `NECK-0002-0124`, `NECK-0003-0124` with sequence numbers
1, 2, 3. -/
theorem generate_sku_increments_and_formats :
    (∀ (c : Category) (m : String),
      (c.generate_sku m).1.sku_sequence_number = c.sku_sequence_number + 1 ∧
      (c.generate_sku m).2.2 = c.sku_sequence_number + 1 ∧
      (c.generate_sku m).2.1 =
        c.pfx ++ "-" ++ zfill 4 (Nat.repr (c.sku_sequence_number + 1)) ++
          "-" ++ m) ∧
    ((⟨1, "Necklace", "NECK", 0⟩ : Category).generate_sku "0124").2 =
        ("NECK-0001-0124", 1) ∧
    (((⟨1, "Necklace", "NECK", 0⟩ : Category).generate_sku
        "0124").1.generate_sku "0124").2 = ("NECK-0002-0124", 2) ∧
    ((((⟨1, "Necklace", "NECK", 0⟩ : Category).generate_sku
        "0124").1.generate_sku "0124").1.generate_sku "0124").2 =
      ("NECK-0003-0124", 3) := by
  refine ⟨fun c m => ⟨rfl, rfl, rfl⟩, ?_, ?_, ?_⟩ <;> decide

/-! Rows of the tables the pipeline touches (`src/models/product.py`,
`src/models/prompt.py`); only the columns the workers and the status routes
read or write are embedded. -/

/-- A `products` row. -/
structure ProductRow where
  id : Nat
  category_id : Nat
  sku : String
  sku_sequence_number : Nat
  purchase_month : String
  raw_image : String
  title : Option String
  description : Option String
  handle : Option String
  status : String
  deriving Repr, DecidableEq

/-- A `product_images` row. -/
structure ProductImageRow where
  product_id : Nat
  image_url : String
  status : String
  priority : Nat
  prompt_id : Option Nat
  deriving Repr, DecidableEq

/-- A `prompts` row. -/
structure PromptRow where
  id : Nat
  category_id : Nat
  text : String
  is_default : Bool
  is_active : Bool
  deriving Repr, DecidableEq

/-- The local database as the pipeline sees it; `raw_images` keeps only the
urls of the `raw_images` table. -/
structure Db where
  products : List ProductRow
  product_images : List ProductImageRow
  prompts : List PromptRow
  raw_images : List String
  deriving Repr, DecidableEq

/-- `Product.query.get(product_id)`. -/
def Db.findProduct (db : Db) (pid : Nat) : Option ProductRow :=
  db.products.find? (fun p => p.id == pid)

/-- The `product_images` rows of one product. -/
def Db.imagesOf (db : Db) (pid : Nat) : List ProductImageRow :=
  db.product_images.filter (fun i => i.product_id == pid)

/-- Status of a product, when the row exists. -/
def Db.productStatus (db : Db) (pid : Nat) : Option String :=
  (db.findProduct pid).map (fun p => p.status)

/-- External effects of one enrichment run (`image_enhancement.py`):
the source-image download, the Gemini title/description call, the Gemini
image generation calls, the S3 uploads, and the final DB commit.  `none` or
`false` models the call raising (404, undecodable image, service error),
which the handler's `except` turns into rollback + `return False`. -/
structure Ext where
  download : String → Option String
  gen_title_desc : Option (String × String)
  gen_image_ok : Bool
  upload : String → Option String
  commit_ok : Bool

/-- Worker configuration (`ENHANCED_IMAGES_COUNT`). -/
structure Cfg where
  enhanced_images_count : Nat
  deriving Repr, DecidableEq

/-- Python's `str.lower()`, character by character. -/
def pyLower (s : String) : String :=
  String.mk (s.toList.map Char.toLower)

/-- `title.lower().replace(' ', '-').replace('/', '-')[:255]`. -/
def mkHandle (title : String) : String :=
  String.mk ((((pyLower title).toList).map
    (fun ch => if ch == ' ' || ch == '/' then '-' else ch)).take 255)

/-- The extension part of `os.path.splitext`: from the last `.` of the last
path component (empty when that component has no dot). -/
def extname (path : String) : String :=
  let rev := path.toList.reverse
  let pre := rev.takeWhile (fun ch => ch != '.' && ch != '/')
  match rev.drop pre.length with
  | '.' :: _ => String.mk ('.' :: pre.reverse)
  | _ => ""

/-- `os.path.basename`. -/
def basename (path : String) : String :=
  String.mk (path.toList.reverse.takeWhile (fun ch => ch != '/')).reverse

/-- The base-name part of `os.path.splitext(os.path.basename(path))`. -/
def stem (path : String) : String :=
  let b := basename path
  let e := extname b
  String.mk (b.toList.take (b.length - e.length))

/-- Sequential S3 uploads of a list of keys; a failing upload raises, so one
`none` aborts the whole run. -/
def uploadAll (up : String → Option String) : List String → Option (List String)
  | [] => some []
  | k :: ks =>
    match up k, uploadAll up ks with
    | some u, some us => some (u :: us)
    | _, _ => none

/-- The product-row mutation of a successful enrichment run: generated
title/description/handle and the advance to `pending_review`. -/
def enrichUpdate (t d h : String) (p : ProductRow) : ProductRow :=
  { p with title := some t, description := some d, handle := some h,
           status := "pending_review" }

/-- The single commit at the end of `process_product`: the new image rows,
the generated title/description/handle, the advance to `pending_review` and
the `raw_images` deletion all become visible together. -/
def Db.commitEnrichment (db : Db) (pid : Nat) (t d h : String)
    (rows : List ProductImageRow) (rawUrl : String) : Db :=
  { db with
    products := db.products.map (fun p =>
      if p.id == pid then enrichUpdate t d h p else p),
    product_images := db.product_images ++ rows,
    raw_images := db.raw_images.eraseP (fun u => u == rawUrl) }

/-- Step 1 of `process_product` (lines 62-76): Gemini title/description, or
the deterministic fallback `(sku, "", sku.lower())` when the call raises. -/
def titleDescHandle (ext : Ext) (product : ProductRow) :
    String × String × String :=
  match ext.gen_title_desc with
  | some td => (td.1, td.2, mkHandle td.1)
  | none => (product.sku, "", pyLower product.sku)

/-- Prompt selection (lines 89-112): an explicit `prompt_id` must exist and
be active (else the handler returns `False`, modelled by the outer `none`);
otherwise the category's default active prompt when there is one, and the
random-selection path (which stores NULL in the rows) when there is none. -/
def selectPromptId (db : Db) (category_id : Nat) (prompt_id : Option Nat) :
    Option (Option Nat) :=
  match prompt_id with
  | some reqId =>
    match db.prompts.find? (fun pr => pr.id == reqId && pr.is_active) with
    | none => none
    | some _ => some (some reqId)
  | none =>
    match db.prompts.find? (fun pr =>
        pr.category_id == category_id && pr.is_default && pr.is_active) with
    | some pr => some (some pr.id)
    | none => some none

/-- The deterministic S3 keys `product-images/{sku}-{idx}{ext}` of the AI
path (lines 131-139), `idx` running from 1 to `ENHANCED_IMAGES_COUNT`; the
generated files carry the extension of the downloaded source. -/
def enrichKeys (sku raw_image : String) (count : Nat) : List String :=
  (List.range' 1 count).map (fun i =>
    "product-images/" ++ sku ++ "-" ++ Nat.repr i ++ extname raw_image)

/-- The S3 key of the direct-copy path (lines 157-163), `.jpg` when the
source has no extension. -/
def directKey (sku raw_image : String) : String :=
  "product-images/" ++ sku ++ "-1" ++
    (if extname raw_image = "" then ".jpg" else extname raw_image)

/-- `WorkerThread.process_product` (`image_enhancement.py` lines 32-193).
Every failure path of the source (missing row, failed download, missing
explicit prompt, failed generation, failed upload, failed commit) returns
`(db, false)`: uncommitted session changes are discarded, nothing persists.
The success path returns the committed database and `true`. -/
def processProduct (db : Db) (ext : Ext) (cfg : Cfg) (product_id : Nat)
    (prompt_id : Option Nat) (is_raw_image : Bool) : Db × Bool :=
  match db.findProduct product_id with
  | none => (db, false)
  | some product =>
    match ext.download product.raw_image with
    | none => (db, false)
    | some raw_image =>
      if is_raw_image then
        match selectPromptId db product.category_id prompt_id with
        | none => (db, false)
        | some rowPromptId =>
          if ext.gen_image_ok then
            match uploadAll ext.upload
                (enrichKeys product.sku raw_image cfg.enhanced_images_count) with
            | none => (db, false)
            | some urls =>
              if ext.commit_ok then
                (db.commitEnrichment product_id
                  (titleDescHandle ext product).1
                  (titleDescHandle ext product).2.1
                  (titleDescHandle ext product).2.2
                  (urls.map (fun u =>
                    (⟨product_id, u, "pending", 0, rowPromptId⟩ :
                      ProductImageRow)))
                  product.raw_image, true)
              else (db, false)
          else (db, false)
      else
        match ext.upload (directKey product.sku raw_image) with
        | none => (db, false)
        | some url =>
          if ext.commit_ok then
            (db.commitEnrichment product_id
              (titleDescHandle ext product).1
              (titleDescHandle ext product).2.1
              (titleDescHandle ext product).2.2
              [⟨product_id, url, "approved", 0, none⟩]
              product.raw_image, true)
          else (db, false)

/-- An enrichment-queue message body. -/
structure EnrichMsg where
  product_id : Option Nat
  prompt_id : Option Nat
  is_raw_image : Bool
  deriving Repr, DecidableEq

/-- One iteration of `WorkerThread.run` on a received message
(`image_enhancement.py` lines 216-244): a body without a (truthy)
`product_id` is deleted outright; otherwise the message is deleted exactly
when `process_product` returns `True`.  The second component says whether
the message was deleted from the queue. -/
def handleEnrichMessage (db : Db) (ext : Ext) (cfg : Cfg) (msg : EnrichMsg) :
    Db × Bool :=
  match msg.product_id with
  | none => (db, true)
  | some pid =>
    if pid == 0 then (db, true)
    else processProduct db ext cfg pid msg.prompt_id msg.is_raw_image

theorem uploadAll_length (up : String → Option String) :
    ∀ ks us, uploadAll up ks = some us → us.length = ks.length := by
  intro ks
  induction ks with
  | nil =>
      intro us h
      simp only [uploadAll, Option.some.injEq] at h
      simp [← h]
  | cons k ks ih =>
      intro us h
      unfold uploadAll at h
      cases hk : up k <;> simp only [hk] at h
      · exact absurd h (by simp)
      · cases hr : uploadAll up ks <;> simp only [hr] at h
        · exact absurd h (by simp)
        · rename_i u v
          obtain rfl := Option.some.inj h
          simp [ih v hr]

theorem find?_enrichUpdate (pid : Nat) (t d h : String) :
    ∀ (l : List ProductRow) (p : ProductRow),
      l.find? (fun q => q.id == pid) = some p →
      (l.map (fun q => if q.id == pid then enrichUpdate t d h q else q)).find?
          (fun q => q.id == pid) = some (enrichUpdate t d h p) := by
  intro l
  induction l with
  | nil => intro p hp; simp at hp
  | cons q qs ih =>
      intro p hp
      simp only [List.map_cons]
      cases hq : (q.id == pid) with
      | true =>
          simp only [List.find?, hq] at hp
          obtain rfl := Option.some.inj hp
          simp [List.find?, hq, enrichUpdate]
      | false =>
          simp only [List.find?, hq] at hp
          simp only [List.find?, hq, Bool.false_eq_true, if_neg,
            not_false_eq_true, reduceIte]
          exact ih p hp

theorem findProduct_commitEnrichment (db : Db) (pid : Nat) (t d h : String)
    (rows : List ProductImageRow) (u : String) (p : ProductRow)
    (hp : db.findProduct pid = some p) :
    (db.commitEnrichment pid t d h rows u).findProduct pid =
      some (enrichUpdate t d h p) := by
  unfold Db.findProduct Db.commitEnrichment at *
  exact find?_enrichUpdate pid t d h db.products p hp

theorem imagesOf_commitEnrichment (db : Db) (pid : Nat) (t d h : String)
    (rows : List ProductImageRow) (u : String)
    (hrows : ∀ r ∈ rows, r.product_id = pid) :
    (db.commitEnrichment pid t d h rows u).imagesOf pid =
      db.imagesOf pid ++ rows := by
  unfold Db.imagesOf Db.commitEnrichment
  simp only [List.filter_append]
  congr 1
  rw [List.filter_eq_self]
  intro r hr
  simp [hrows r hr]

/-- Case analysis of `process_product`: every run either leaves the database
untouched and reports failure, or commits exactly one `commitEnrichment`
with row counts determined by the branch taken. -/
theorem processProduct_cases (db : Db) (ext : Ext) (cfg : Cfg) (pid : Nat)
    (prid : Option Nat) (raw : Bool) :
    processProduct db ext cfg pid prid raw = (db, false) ∨
    ∃ p t d h rows,
      db.findProduct pid = some p ∧
      (raw = true → rows.length = cfg.enhanced_images_count) ∧
      (raw = false → rows.length = 1) ∧
      (∀ r ∈ rows, r.product_id = pid) ∧
      processProduct db ext cfg pid prid raw =
        (db.commitEnrichment pid t d h rows p.raw_image, true) := by
  unfold processProduct
  split
  · exact Or.inl rfl
  · rename_i product hfp
    split
    · exact Or.inl rfl
    · rename_i raw_image hdl
      split
      · rename_i hraw
        split
        · exact Or.inl rfl
        · rename_i rowPromptId hsel
          split
          · rename_i hgen
            split
            · exact Or.inl rfl
            · rename_i urls hup
              split
              · rename_i hco
                refine Or.inr ⟨product, (titleDescHandle ext product).1,
                  (titleDescHandle ext product).2.1,
                  (titleDescHandle ext product).2.2,
                  urls.map (fun u =>
                    (⟨pid, u, "pending", 0, rowPromptId⟩ : ProductImageRow)),
                  hfp, ?_, ?_, ?_, rfl⟩
                · intro _
                  rw [List.length_map, uploadAll_length ext.upload _ _ hup]
                  simp [enrichKeys]
                · intro hfalse
                  rw [hfalse] at hraw
                  exact absurd hraw (by simp)
                · intro r hr
                  obtain ⟨u, _, rfl⟩ := List.mem_map.mp hr
                  rfl
              · exact Or.inl rfl
          · exact Or.inl rfl
      · rename_i hraw
        split
        · exact Or.inl rfl
        · rename_i url hup
          split
          · rename_i hco
            refine Or.inr ⟨product, (titleDescHandle ext product).1,
              (titleDescHandle ext product).2.1,
              (titleDescHandle ext product).2.2,
              [⟨pid, url, "approved", 0, none⟩],
              hfp, ?_, ?_, ?_, rfl⟩
            · intro htrue
              exact absurd htrue hraw
            · intro _
              rfl
            · intro r hr
              obtain rfl := List.mem_singleton.mp hr
              rfl
          · exact Or.inl rfl

/-- An external world where every call fails: the fetch 404s, Gemini and S3
raise. -/
def extDead : Ext := ⟨fun _ => none, none, false, fun _ => none, false⟩

/-- An external world where the source fetch 404s but everything else
works. -/
def ext404 : Ext :=
  ⟨fun _ => none, some ("Gold Necklace", "A fine necklace"), true,
   fun k => some ("https://s3.example.com/" ++ k), true⟩

/-- A fully functional external world. -/
def extOk : Ext :=
  ⟨fun _ => some "/tmp/raw.jpg",
   some ("Gold Necklace", "A fine necklace"), true,
   fun k => some ("https://s3.example.com/" ++ k), true⟩

/-- A pending product awaiting enrichment. -/
def productPending : ProductRow :=
  ⟨1, 1, "NECK-0001-0124", 1, "0124", "https://img.example.com/raw.jpg",
   none, none, none, "pending"⟩

/-- The default active prompt of category 1. -/
def promptDefault : PromptRow := ⟨5, 1, "studio shot", true, true⟩

/-- The empty database. -/
def dbEmpty : Db := ⟨[], [], [], []⟩

/-- A database holding one pending product, its raw image and a default
prompt. -/
def dbPending : Db :=
  ⟨[productPending], [], [promptDefault], ["https://img.example.com/raw.jpg"]⟩

/-- Three enhanced images per product. -/
def cfg3 : Cfg := ⟨3⟩

/-- Claim C2 is false on the code: a message whose product row is absent,
and a message whose source-image fetch 404s, both end with
`process_product` returning `False`, and `run` then does NOT delete the
message (it is left for redelivery) — the claim says such permanent
failures delete the message.  The product of the second case does stay
`pending`. -/
theorem enrich_permanent_failure_counterexample :
    (handleEnrichMessage dbEmpty extDead cfg3 ⟨some 1, none, true⟩).2
        = false ∧
    (handleEnrichMessage dbPending ext404 cfg3 ⟨some 1, none, true⟩).2
        = false ∧
    (handleEnrichMessage dbPending ext404 cfg3
        ⟨some 1, none, true⟩).1.productStatus 1 = some "pending" := by
  exact ⟨rfl, rfl, rfl⟩

/-- Claim C2 amended: for a permanent failure — the referenced product row
is absent, or the source image cannot be fetched/decoded — the handler
reports failure, the worker loop leaves the message on the queue for broker
redelivery (it does not delete it), and the database is unchanged, so the
product (if it exists) keeps its prior status, e.g. `pending`. -/
theorem enrich_permanent_failure_message_redelivered (db : Db) (ext : Ext)
    (cfg : Cfg) (prid : Option Nat) (raw : Bool) (pid : Nat) (hpid : pid ≠ 0)
    (hperm : db.findProduct pid = none ∨
      ∃ p, db.findProduct pid = some p ∧ ext.download p.raw_image = none) :
    handleEnrichMessage db ext cfg ⟨some pid, prid, raw⟩ = (db, false) := by
  have h0 : (pid == 0) = false := by simpa using hpid
  have hh : handleEnrichMessage db ext cfg ⟨some pid, prid, raw⟩ =
      processProduct db ext cfg pid prid raw := by
    unfold handleEnrichMessage
    simp only [h0, Bool.false_eq_true, not_false_eq_true, reduceIte]
  rw [hh]
  unfold processProduct
  rcases hperm with hnone | ⟨p, hp, hdl⟩
  · simp only [hnone]
  · simp only [hp, hdl]

/-- Witness for the amended C2 at a concrete permanent failure (missing
row). -/
theorem enrich_permanent_failure_message_redelivered_witness :
    (1 : Nat) ≠ 0 ∧
    (dbEmpty.findProduct 1 = none ∨
      ∃ p, dbEmpty.findProduct 1 = some p ∧
        extDead.download p.raw_image = none) ∧
    handleEnrichMessage dbEmpty extDead cfg3 ⟨some 1, none, true⟩ =
      (dbEmpty, false) :=
  ⟨by decide, Or.inl rfl,
   enrich_permanent_failure_message_redelivered dbEmpty extDead cfg3 none
     true 1 (by decide) (Or.inl rfl)⟩

/-- Claim C4: the product advances out of `pending` only through the single
atomic commit that also writes every image row of the run and the generated
title/description/handle (and the raw-image deletion); any failure before
the commit leaves every local table unchanged (full rollback) and the
worker loop keeps the message on the queue for redelivery. -/
theorem enrichment_atomic (db : Db) (ext : Ext) (cfg : Cfg) (pid : Nat)
    (prid : Option Nat) (raw : Bool) (hpid : pid ≠ 0) :
    ((processProduct db ext cfg pid prid raw).2 = false →
      (processProduct db ext cfg pid prid raw).1 = db ∧
      handleEnrichMessage db ext cfg ⟨some pid, prid, raw⟩ = (db, false)) ∧
    ((processProduct db ext cfg pid prid raw).2 = true →
      ∃ p t d h rows,
        db.findProduct pid = some p ∧
        (processProduct db ext cfg pid prid raw).1 =
          db.commitEnrichment pid t d h rows p.raw_image ∧
        (processProduct db ext cfg pid prid raw).1.findProduct pid =
          some (enrichUpdate t d h p) ∧
        (processProduct db ext cfg pid prid raw).1.imagesOf pid =
          db.imagesOf pid ++ rows) := by
  have h0 : (pid == 0) = false := by simpa using hpid
  have hh : handleEnrichMessage db ext cfg ⟨some pid, prid, raw⟩ =
      processProduct db ext cfg pid prid raw := by
    unfold handleEnrichMessage
    simp only [h0, Bool.false_eq_true, not_false_eq_true, reduceIte]
  rcases processProduct_cases db ext cfg pid prid raw with
    hfail | ⟨p, t, d, h, rows, hfp, _, _, hrows, heq⟩
  · constructor
    · intro _
      exact ⟨by rw [hfail], by rw [hh, hfail]⟩
    · intro htrue
      rw [hfail] at htrue
      exact absurd htrue (by simp)
  · constructor
    · intro hfalse
      rw [heq] at hfalse
      exact absurd hfalse (by simp)
    · intro _
      exact ⟨p, t, d, h, rows, hfp, by rw [heq],
        by rw [heq]
           exact findProduct_commitEnrichment _ _ _ _ _ _ _ _ hfp,
        by rw [heq]
           exact imagesOf_commitEnrichment _ _ _ _ _ _ _ hrows⟩

/-- Witness for C4 at a concrete successful run. -/
theorem enrichment_atomic_witness :
    (1 : Nat) ≠ 0 ∧
    (((processProduct dbPending extOk cfg3 1 none true).2 = false →
      (processProduct dbPending extOk cfg3 1 none true).1 = dbPending ∧
      handleEnrichMessage dbPending extOk cfg3 ⟨some 1, none, true⟩ =
        (dbPending, false)) ∧
    ((processProduct dbPending extOk cfg3 1 none true).2 = true →
      ∃ p t d h rows,
        dbPending.findProduct 1 = some p ∧
        (processProduct dbPending extOk cfg3 1 none true).1 =
          dbPending.commitEnrichment 1 t d h rows p.raw_image ∧
        (processProduct dbPending extOk cfg3 1 none true).1.findProduct 1 =
          some (enrichUpdate t d h p) ∧
        (processProduct dbPending extOk cfg3 1 none true).1.imagesOf 1 =
          dbPending.imagesOf 1 ++ rows)) :=
  ⟨by decide, enrichment_atomic dbPending extOk cfg3 1 none true (by decide)⟩

/-! The catalog-sync worker (`src/workers/catalog_sync.py`). -/

/-- Image rows of a product ordered by ascending `priority`
(`.order_by(ProductImage.priority.asc())`). -/
def sortByPriority (l : List ProductImageRow) : List ProductImageRow :=
  List.insertionSort (fun a b => a.priority ≤ b.priority) l

/-- `image_urls` as built at lines 55-60: the urls of ALL image rows of the
product, ordered by priority — no filter on the image status. -/
def syncImageUrls (db : Db) (pid : Nat) : List String :=
  (sortByPriority (db.imagesOf pid)).map (fun i => i.image_url)

/-- The `images=image_urls if image_urls else None` argument of the
create/update calls. -/
def syncImagesArg (db : Db) (pid : Nat) : Option (List String) :=
  if (syncImageUrls db pid).isEmpty then none
  else some (syncImageUrls db pid)

/-- A remote Shopify call made by the sync worker. -/
inductive RemoteCall where
  | findBySku (sku : String)
  | createProduct (sku : String) (images : Option (List String))
  | updateProduct (rid : Nat) (images : Option (List String))
  deriving Repr, DecidableEq

/-- The image payload of a remote call. -/
def sentImages : RemoteCall → Option (List String)
  | RemoteCall.findBySku _ => none
  | RemoteCall.createProduct _ imgs => imgs
  | RemoteCall.updateProduct _ imgs => imgs

/-- The remote catalog: what `find_product_by_sku` returns (the remote
product id when a listing with that SKU exists) and whether the mutating
calls succeed. -/
structure Remote where
  lookup : String → Option Nat
  update_ok : Bool
  create_ok : Bool

/-- `CatalogSyncWorker.sync_product_to_shopify` (`catalog_sync.py` lines
29-114): a missing row returns `False`; a product whose status is not
`live` returns `True` without any remote call; otherwise the worker sends
all image rows ordered by priority and upserts by SKU — update when the
remote lookup finds the SKU, create when it does not.  Returns success and
the remote calls made (a failing mutating call has already been issued when
it raises, so it stays in the list). -/
def syncProductToShopify (db : Db) (remote : Remote) (pid : Nat) :
    Bool × List RemoteCall :=
  match db.findProduct pid with
  | none => (false, [])
  | some product =>
    if product.status ≠ "live" then (true, [])
    else
      match remote.lookup product.sku with
      | some rid =>
        (remote.update_ok,
         [RemoteCall.findBySku product.sku,
          RemoteCall.updateProduct rid (syncImagesArg db pid)])
      | none =>
        (remote.create_ok,
         [RemoteCall.findBySku product.sku,
          RemoteCall.createProduct product.sku (syncImagesArg db pid)])

/-- A catalog-sync queue message body. -/
structure SyncMsg where
  product_id : Option Nat
  action : String
  deriving Repr, DecidableEq

/-- One iteration of `CatalogSyncWorker.run` on a received message (lines
142-176): a body without a truthy `product_id` is deleted outright;
otherwise the message is deleted exactly when the sync reports success.
Returns (message deleted, remote calls made). -/
def handleSyncMessage (db : Db) (remote : Remote) (msg : SyncMsg) :
    Bool × List RemoteCall :=
  match msg.product_id with
  | none => (true, [])
  | some pid =>
    if pid == 0 then (true, [])
    else syncProductToShopify db remote pid

/-- Claim C6: a catalog-sync message referencing an existing product whose
status is not `live` (e.g. `pending_review`) makes no remote call, reports
success, and the message is deleted from the queue — a no-op
acknowledgement. -/
theorem catalog_sync_nonlive_noop (db : Db) (remote : Remote) (pid : Nat)
    (a : String) (p : ProductRow) (hpid : pid ≠ 0)
    (hp : db.findProduct pid = some p) (hs : p.status ≠ "live") :
    handleSyncMessage db remote ⟨some pid, a⟩ = (true, []) ∧
    syncProductToShopify db remote pid = (true, []) := by
  have h0 : (pid == 0) = false := by simpa using hpid
  have hsync : syncProductToShopify db remote pid = (true, []) := by
    unfold syncProductToShopify
    simp only [hp]
    rw [if_pos hs]
  refine ⟨?_, hsync⟩
  unfold handleSyncMessage
  simp only [h0, Bool.false_eq_true, not_false_eq_true, reduceIte]
  exact hsync

/-- A `pending_review` product with generated text. -/
def productReview : ProductRow :=
  ⟨2, 1, "NECK-0002-0124", 2, "0124", "https://img.example.com/raw2.jpg",
   some "Gold Necklace", some "A fine necklace", some "gold-necklace",
   "pending_review"⟩

/-- A remote catalog with no listings. -/
def remoteEmpty : Remote := ⟨fun _ => none, true, true⟩

/-- A remote catalog where every SKU resolves to listing 77. -/
def remoteHasSku : Remote := ⟨fun _ => some 77, true, true⟩

/-- Database with one `pending_review` product. -/
def dbReview : Db := ⟨[productReview], [], [], []⟩

/-- Witness for C6 on a concrete `pending_review` product. -/
theorem catalog_sync_nonlive_noop_witness :
    (2 : Nat) ≠ 0 ∧ dbReview.findProduct 2 = some productReview ∧
    productReview.status ≠ "live" ∧
    (handleSyncMessage dbReview remoteEmpty ⟨some 2, "create"⟩ =
        (true, []) ∧
      syncProductToShopify dbReview remoteEmpty 2 = (true, [])) :=
  ⟨by decide, rfl, by decide,
   catalog_sync_nonlive_noop dbReview remoteEmpty 2 "create" productReview
     (by decide) rfl (by decide)⟩

/-- Claim C7: syncing a `live` product calls the remote update operation
and never create when the lookup by SKU finds an existing listing, and
create and never update when it finds none. -/
theorem catalog_sync_upsert_by_sku (db : Db) (remote : Remote) (pid : Nat)
    (p : ProductRow) (hp : db.findProduct pid = some p)
    (hs : p.status = "live") :
    (∀ rid, remote.lookup p.sku = some rid →
      (∃ imgs, RemoteCall.updateProduct rid imgs ∈
          (syncProductToShopify db remote pid).2) ∧
      (∀ sku imgs, RemoteCall.createProduct sku imgs ∉
          (syncProductToShopify db remote pid).2)) ∧
    (remote.lookup p.sku = none →
      (∃ imgs, RemoteCall.createProduct p.sku imgs ∈
          (syncProductToShopify db remote pid).2) ∧
      (∀ rid imgs, RemoteCall.updateProduct rid imgs ∉
          (syncProductToShopify db remote pid).2)) := by
  have hns : ¬ p.status ≠ "live" := by simp [hs]
  have hred : (syncProductToShopify db remote pid).2 =
      (match remote.lookup p.sku with
       | some rid =>
         [RemoteCall.findBySku p.sku,
          RemoteCall.updateProduct rid (syncImagesArg db pid)]
       | none =>
         [RemoteCall.findBySku p.sku,
          RemoteCall.createProduct p.sku (syncImagesArg db pid)]) := by
    unfold syncProductToShopify
    simp only [hp]
    rw [if_neg hns]
    cases remote.lookup p.sku <;> rfl
  constructor
  · intro rid hr
    rw [hred, hr]
    exact ⟨⟨syncImagesArg db pid, by simp⟩, by intro sku imgs; simp⟩
  · intro hr
    rw [hred, hr]
    exact ⟨⟨syncImagesArg db pid, by simp⟩, by intro rid imgs; simp⟩

/-- A `live` product. -/
def productLive : ProductRow :=
  ⟨3, 1, "NECK-0003-0124", 3, "0124", "https://img.example.com/raw3.jpg",
   some "Gold Ring", some "A fine ring", some "gold-ring", "live"⟩

/-- An unapproved image with low display priority. -/
def imgPending : ProductImageRow :=
  ⟨3, "https://s3.example.com/a.jpg", "pending", 2, some 5⟩

/-- A rejected image with the highest display priority. -/
def imgRejected : ProductImageRow :=
  ⟨3, "https://s3.example.com/b.jpg", "rejected", 0, none⟩

/-- An approved image with middle priority. -/
def imgApproved : ProductImageRow :=
  ⟨3, "https://s3.example.com/c.jpg", "approved", 1, none⟩

/-- Database with one `live` product whose images are in mixed review
states and stored out of priority order. -/
def dbLive : Db :=
  ⟨[productLive], [imgPending, imgRejected, imgApproved], [], []⟩

/-- Witness for C7 on a concrete `live` product whose SKU exists remotely:
the worker issues the update call and no create call. -/
theorem catalog_sync_upsert_by_sku_witness :
    dbLive.findProduct 3 = some productLive ∧
    productLive.status = "live" ∧
    ((∀ rid, remoteHasSku.lookup productLive.sku = some rid →
      (∃ imgs, RemoteCall.updateProduct rid imgs ∈
          (syncProductToShopify dbLive remoteHasSku 3).2) ∧
      (∀ sku imgs, RemoteCall.createProduct sku imgs ∉
          (syncProductToShopify dbLive remoteHasSku 3).2)) ∧
    (remoteHasSku.lookup productLive.sku = none →
      (∃ imgs, RemoteCall.createProduct productLive.sku imgs ∈
          (syncProductToShopify dbLive remoteHasSku 3).2) ∧
      (∀ rid imgs, RemoteCall.updateProduct rid imgs ∉
          (syncProductToShopify dbLive remoteHasSku 3).2))) :=
  ⟨rfl, rfl,
   catalog_sync_upsert_by_sku dbLive remoteHasSku 3 productLive rfl rfl⟩

/-- Claim C10: the sync of a `live` product sends the product's ENTIRE
image set to the remote catalog ordered by ascending priority, regardless
of each image's approval status: the single mutating call carries the urls
of a priority-sorted permutation of all the product's image rows —
`pending` and `rejected` rows included. -/
theorem catalog_sync_sends_all_images (db : Db) (remote : Remote)
    (pid : Nat) (p : ProductRow) (hp : db.findProduct pid = some p)
    (hs : p.status = "live") :
    (∃ c, (syncProductToShopify db remote pid).2 =
        [RemoteCall.findBySku p.sku, c] ∧
      sentImages c = syncImagesArg db pid) ∧
    syncImageUrls db pid =
      (sortByPriority (db.imagesOf pid)).map (fun i => i.image_url) ∧
    List.Perm (sortByPriority (db.imagesOf pid)) (db.imagesOf pid) ∧
    List.Sorted (fun a b => a.priority ≤ b.priority)
      (sortByPriority (db.imagesOf pid)) ∧
    ∀ img ∈ db.imagesOf pid, img.image_url ∈ syncImageUrls db pid := by
  have hns : ¬ p.status ≠ "live" := by simp [hs]
  have hperm : List.Perm (sortByPriority (db.imagesOf pid)) (db.imagesOf pid) :=
    List.perm_insertionSort _ _
  haveI htot : IsTotal ProductImageRow (fun a b => a.priority ≤ b.priority) :=
    ⟨fun a b => Nat.le_total a.priority b.priority⟩
  haveI htr : IsTrans ProductImageRow (fun a b => a.priority ≤ b.priority) :=
    ⟨fun a b c hab hbc => Nat.le_trans hab hbc⟩
  refine ⟨?_, rfl, hperm, List.sorted_insertionSort _ _, ?_⟩
  · unfold syncProductToShopify
    simp only [hp]
    rw [if_neg hns]
    cases remote.lookup p.sku with
    | none => exact ⟨_, rfl, rfl⟩
    | some rid => exact ⟨_, rfl, rfl⟩
  · intro img himg
    unfold syncImageUrls
    exact List.mem_map.mpr ⟨img, hperm.mem_iff.mpr himg, rfl⟩

/-- Witness for C10: the concrete `live` product's payload contains the
`pending` and the `rejected` image too, ordered by priority. -/
theorem catalog_sync_sends_all_images_witness :
    dbLive.findProduct 3 = some productLive ∧
    productLive.status = "live" ∧
    ((∃ c, (syncProductToShopify dbLive remoteEmpty 3).2 =
        [RemoteCall.findBySku productLive.sku, c] ∧
      sentImages c = syncImagesArg dbLive 3) ∧
    syncImageUrls dbLive 3 =
      (sortByPriority (dbLive.imagesOf 3)).map (fun i => i.image_url) ∧
    List.Perm (sortByPriority (dbLive.imagesOf 3)) (dbLive.imagesOf 3) ∧
    List.Sorted (fun a b => a.priority ≤ b.priority)
      (sortByPriority (dbLive.imagesOf 3)) ∧
    ∀ img ∈ dbLive.imagesOf 3, img.image_url ∈ syncImageUrls dbLive 3) ∧
    syncImageUrls dbLive 3 =
      ["https://s3.example.com/b.jpg", "https://s3.example.com/c.jpg",
       "https://s3.example.com/a.jpg"] :=
  ⟨rfl, rfl,
   catalog_sync_sends_all_images dbLive remoteEmpty 3 productLive rfl rfl,
   by decide⟩

/-! The CRUD API layer: the status-transition route and the bulk-create
route (`src/routes/products.py`). -/

/-- A message on the catalog-sync queue as `send_catalog_sync_message`
would build it. -/
structure CatalogSyncOut where
  product_id : Nat
  action : String
  deriving Repr, DecidableEq

/-- `update_product_status` (`src/routes/products.py` lines 799-857):
404 on a missing product, 400 on a missing or invalid `status` field, else
sets the product's status to `live` or `rejected` — with no check of the
current status — and commits.  The last component is the catalog-sync
outbox of the route: the source contains no `send_catalog_sync_message`
call (that helper has no caller anywhere in the repository), so the outbox
is `[]` on every path. -/
def updateProductStatus (db : Db) (pid : Nat) (body : Option String) :
    Db × Nat × List CatalogSyncOut :=
  match db.findProduct pid with
  | none => (db, 404, [])
  | some _ =>
    match body with
    | none => (db, 400, [])
    | some requested =>
      if pyLower requested = "live" ∨ pyLower requested = "rejected" then
        ({ db with products := db.products.map (fun p =>
            if p.id == pid then { p with status := pyLower requested }
            else p) },
         200, [])
      else (db, 400, [])

/-- A validated item of a bulk-create request (the fields
`bulk_create_products` uses for allocation, status and queuing). -/
structure BulkItem where
  category_name : String
  purchase_month : String
  raw_image : String
  is_raw_image : Bool
  deriving Repr, DecidableEq

/-- `Category.query.filter_by(name=...).first()`. -/
def findCategoryByName (cats : List Category) (name : String) :
    Option Category :=
  cats.find? (fun c => c.name == name)

/-- The per-item loop of `bulk_create_products` (lines 140-194): look the
category up by name (a missing category fails the whole request with 400
and rolls everything back, modelled by `none`), allocate a SKU via
`generate_sku` against the in-session category row, and insert the product
with status `pending` (raw image, to be queued for enrichment) or
`pending_review` (pre-vetted image).  Returns the updated categories, the
updated database and the created ids to queue for enrichment. -/
def bulkCreateGo (cats : List Category) (db : Db) (nextId : Nat) :
    List BulkItem → Option (List Category × Db × List Nat)
  | [] => some (cats, db, [])
  | it :: rest =>
    match findCategoryByName cats it.category_name with
    | none => none
    | some cat =>
      match bulkCreateGo
          (cats.map (fun c =>
            if c.id == cat.id then (cat.generate_sku it.purchase_month).1
            else c))
          { db with products := db.products ++
              [⟨nextId, cat.id, (cat.generate_sku it.purchase_month).2.1,
                (cat.generate_sku it.purchase_month).2.2, it.purchase_month,
                it.raw_image, none, none, none,
                if it.is_raw_image then "pending" else "pending_review"⟩] }
          (nextId + 1) rest with
      | none => none
      | some (cats2, db2, queued) =>
        some (cats2, db2,
          (if it.is_raw_image then [nextId] else []) ++ queued)

/-- `bulk_create_products` as the queues see it: a failed request commits
nothing and queues nothing; a successful one commits the products and sends
one enrichment-queue message per created raw-image product
(`sqs_service.send_message`, line 237).  The route never touches the
catalog-sync queue, so the catalog-sync outbox (last component) is
always `[]`. -/
def bulkCreateProducts (cats : List Category) (db : Db) (nextId : Nat)
    (items : List BulkItem) :
    (List Category × Db) × List Nat × List CatalogSyncOut :=
  match bulkCreateGo cats db nextId items with
  | none => ((cats, db), [], [])
  | some (cats2, db2, queued) => ((cats2, db2), queued, [])

/-- The ids `bulk_create_products` queues for enrichment: consecutive new
ids, one per raw-image item (lines 186-188). -/
def expectedQueue (nextId : Nat) : List BulkItem → List Nat
  | [] => []
  | it :: rest =>
    (if it.is_raw_image then [nextId] else []) ++
      expectedQueue (nextId + 1) rest

theorem bulkCreateGo_queued (items : List BulkItem) :
    ∀ cats db nextId cats2 db2 queued,
      bulkCreateGo cats db nextId items = some (cats2, db2, queued) →
      queued = expectedQueue nextId items := by
  induction items with
  | nil =>
      intro cats db nextId cats2 db2 queued h
      unfold bulkCreateGo at h
      simp only [Option.some.injEq, Prod.mk.injEq] at h
      obtain ⟨-, -, rfl⟩ := h
      rfl
  | cons it rest ih =>
      intro cats db nextId cats2 db2 queued h
      unfold bulkCreateGo at h
      split at h
      · exact absurd h (by simp)
      · split at h
        · exact absurd h (by simp)
        · rename_i cat hfc c2 d2 q2 hrec
          simp only [Option.some.injEq, Prod.mk.injEq] at h
          obtain ⟨-, -, rfl⟩ := h
          unfold expectedQueue
          rw [ih _ _ _ _ _ _ hrec]

theorem bulkCreateGo_statuses (items : List BulkItem) :
    ∀ cats db nextId cats2 db2 queued,
      bulkCreateGo cats db nextId items = some (cats2, db2, queued) →
      ∀ q ∈ db2.products,
        q ∈ db.products ∨ q.status = "pending" ∨
          q.status = "pending_review" := by
  induction items with
  | nil =>
      intro cats db nextId cats2 db2 queued h q hq
      unfold bulkCreateGo at h
      simp only [Option.some.injEq, Prod.mk.injEq] at h
      obtain ⟨-, rfl, -⟩ := h
      exact Or.inl hq
  | cons it rest ih =>
      intro cats db nextId cats2 db2 queued h q hq
      unfold bulkCreateGo at h
      split at h
      · exact absurd h (by simp)
      · split at h
        · exact absurd h (by simp)
        · rename_i cat hfc c2 d2 q2 hrec
          simp only [Option.some.injEq, Prod.mk.injEq] at h
          obtain ⟨-, rfl, -⟩ := h
          rcases ih _ _ _ _ _ _ hrec q hq with hold | hnew
          · rcases List.mem_append.mp hold with hdb | hprod
            · exact Or.inl hdb
            · obtain rfl := List.mem_singleton.mp hprod
              by_cases hraw : it.is_raw_image = true
              · right; left; simp [hraw]
              · right; right; simp [hraw]
          · exact Or.inr hnew

theorem find?_statusUpdate (pid : Nat) (ns : String) :
    ∀ (l : List ProductRow) (p : ProductRow),
      l.find? (fun q => q.id == pid) = some p →
      (l.map (fun q =>
          if q.id == pid then { q with status := ns } else q)).find?
        (fun q => q.id == pid) = some { p with status := ns } := by
  intro l
  induction l with
  | nil => intro p hp; simp at hp
  | cons q qs ih =>
      intro p hp
      simp only [List.map_cons]
      cases hq : (q.id == pid) with
      | true =>
          simp only [List.find?, hq] at hp
          obtain rfl := Option.some.inj hp
          simp [List.find?, hq]
      | false =>
          simp only [List.find?, hq] at hp
          simp only [List.find?, hq, Bool.false_eq_true, if_neg,
            not_false_eq_true, reduceIte]
          exact ih p hp

theorem commitEnrichment_statuses (db : Db) (pid : Nat) (t d h : String)
    (rows : List ProductImageRow) (u : String) (q : ProductRow)
    (hq : q ∈ (db.commitEnrichment pid t d h rows u).products) :
    q.status = "pending_review" ∨
      ∃ q0 ∈ db.products, q.status = q0.status := by
  obtain ⟨q0, hq0, hmap⟩ := List.mem_map.mp hq
  by_cases hid : (q0.id == pid) = true
  · rw [if_pos hid] at hmap
    exact Or.inl (by rw [← hmap]; rfl)
  · rw [if_neg hid] at hmap
    exact Or.inr ⟨q0, hq0, by rw [← hmap]⟩

/-- Claim C8 is false on the code: transitioning a `pending_review` product
to `live` through the status route succeeds (HTTP 200, the status becomes
`live`) yet the route enqueues NO catalog-sync message — its catalog-sync
outbox is empty, because `update_product_status` never calls
`send_catalog_sync_message` (which has no caller at all in the
repository). -/
theorem live_transition_enqueues_nothing_counterexample :
    (updateProductStatus dbReview 2 (some "live")).2.1 = 200 ∧
    (updateProductStatus dbReview 2 (some "live")).1.productStatus 2 =
      some "live" ∧
    (updateProductStatus dbReview 2 (some "live")).2.2 = [] := by
  exact ⟨rfl, rfl, rfl⟩

/-- Claim C8 amended: the CRUD API layer enqueues NO catalog-sync message
when it transitions a product to `live` (or to `rejected`): the status
route's catalog-sync outbox is empty on every input, and so is the
bulk-create route's; the API does enqueue an enrichment message for each
created raw-image product on bulk creation. -/
theorem api_enqueues_no_catalog_sync (db : Db) (pid : Nat)
    (body : Option String) (cats : List Category) (nextId : Nat)
    (items : List BulkItem) :
    (updateProductStatus db pid body).2.2 = [] ∧
    (bulkCreateProducts cats db nextId items).2.2 = [] ∧
    (∀ r, bulkCreateGo cats db nextId items = some r →
      (bulkCreateProducts cats db nextId items).2.1 =
        expectedQueue nextId items) := by
  refine ⟨?_, ?_, ?_⟩
  · unfold updateProductStatus
    split
    · rfl
    · split
      · rfl
      · split
        · rfl
        · rfl
  · unfold bulkCreateProducts
    split
    · rfl
    · rfl
  · intro r hr
    obtain ⟨c2, d2, q2⟩ := r
    unfold bulkCreateProducts
    simp only [hr]
    exact bulkCreateGo_queued items cats db nextId c2 d2 q2 hr

/-- The category and item used by the C8 witness. -/
def catNeck : Category := ⟨1, "Necklace", "NECK", 0⟩

/-- A raw-image bulk item for the C8 witness. -/
def itemRaw : BulkItem :=
  ⟨"Necklace", "0124", "https://img.example.com/raw9.jpg", true⟩

/-- Witness for the amended C8: concrete transition to `live` and concrete
bulk creation; the catalog-sync outboxes are empty and the bulk enrichment
outbox queues exactly the one raw-image product id. -/
theorem api_enqueues_no_catalog_sync_witness :
    (updateProductStatus dbReview 2 (some "live")).2.2 = [] ∧
    (bulkCreateProducts [catNeck] dbEmpty 10 [itemRaw]).2.2 = [] ∧
    (bulkCreateProducts [catNeck] dbEmpty 10 [itemRaw]).2.1 =
      expectedQueue 10 [itemRaw] ∧
    (bulkCreateProducts [catNeck] dbEmpty 10 [itemRaw]).2.1 = [10] :=
  ⟨(api_enqueues_no_catalog_sync dbReview 2 (some "live") [catNeck] 10
      [itemRaw]).1,
   (api_enqueues_no_catalog_sync dbEmpty 2 (some "live") [catNeck] 10
      [itemRaw]).2.1,
   (api_enqueues_no_catalog_sync dbEmpty 2 (some "live") [catNeck] 10
      [itemRaw]).2.2
     (⟨[⟨1, "Necklace", "NECK", 1⟩],
       ⟨[⟨10, 1, "NECK-0001-0124", 1, "0124",
          "https://img.example.com/raw9.jpg", none, none, none,
          "pending"⟩], [], [], []⟩, [10]⟩) rfl,
   by decide⟩

/-- Claim C9 is false on the code: `update_product_status` accepts a
product whose status is `pending` and moves it straight to `live` with
HTTP 200 — nothing restricts the transition to `pending_review`
products. -/
theorem pending_straight_to_live_counterexample :
    dbPending.productStatus 1 = some "pending" ∧
    (updateProductStatus dbPending 1 (some "live")).2.1 = 200 ∧
    (updateProductStatus dbPending 1 (some "live")).1.productStatus 1 =
      some "live" := by
  exact ⟨rfl, rfl, rfl⟩

/-- Claim C9 amended: a product's status becomes `live` or `rejected` only
via the explicit status-transition operation — the enrichment worker
writes only `pending_review` and bulk creation creates only
`pending`/`pending_review` products — but that operation does not require
the current status to be `pending_review`: it transitions a product with
ANY current status, `pending` included, to the requested value. -/
theorem live_rejected_only_via_transition (db : Db) (pid : Nat)
    (p : ProductRow) (s : String) (hp : db.findProduct pid = some p)
    (hs : s = "live" ∨ s = "rejected") :
    ((updateProductStatus db pid (some s)).2.1 = 200 ∧
     (updateProductStatus db pid (some s)).1.productStatus pid = some s) ∧
    (∀ (ext : Ext) (cfg : Cfg) (pid2 : Nat) (prid : Option Nat)
        (raw : Bool) (q : ProductRow),
      q ∈ (processProduct db ext cfg pid2 prid raw).1.products →
      q.status = "pending_review" ∨
        ∃ q0 ∈ db.products, q.status = q0.status) ∧
    (∀ (cats : List Category) (nextId : Nat) (items : List BulkItem)
        (cats2 : List Category) (db2 : Db) (queued : List Nat)
        (q : ProductRow),
      bulkCreateGo cats db nextId items = some (cats2, db2, queued) →
      q ∈ db2.products →
      q ∈ db.products ∨ q.status = "pending" ∨
        q.status = "pending_review") := by
  refine ⟨?_, ?_, ?_⟩
  · have hlow : pyLower s = s := by
      rcases hs with rfl | rfl <;> decide
    have hcond : pyLower s = "live" ∨ pyLower s = "rejected" := by
      rw [hlow]; exact hs
    unfold updateProductStatus
    simp only [hp]
    rw [if_pos hcond]
    refine ⟨rfl, ?_⟩
    unfold Db.productStatus Db.findProduct
    rw [find?_statusUpdate pid (pyLower s) db.products p hp]
    simp [hlow]
  · intro ext cfg pid2 prid raw q hq
    rcases processProduct_cases db ext cfg pid2 prid raw with
      hfail | ⟨p2, t2, d2, h2, rows2, _, _, _, _, heq⟩
    · rw [hfail] at hq
      exact Or.inr ⟨q, hq, rfl⟩
    · rw [heq] at hq
      exact commitEnrichment_statuses db pid2 t2 d2 h2 rows2
        p2.raw_image q hq
  · intro cats nextId items cats2 db2 queued q hrec hq
    exact bulkCreateGo_statuses items cats db nextId cats2 db2 queued
      hrec q hq

/-- Witness for the amended C9 at the concrete `pending` product moved to
`live`. -/
theorem live_rejected_only_via_transition_witness :
    dbPending.findProduct 1 = some productPending ∧
    ("live" = "live" ∨ "live" = "rejected") ∧
    (((updateProductStatus dbPending 1 (some "live")).2.1 = 200 ∧
      (updateProductStatus dbPending 1 (some "live")).1.productStatus 1 =
        some "live") ∧
    (∀ (ext : Ext) (cfg : Cfg) (pid2 : Nat) (prid : Option Nat)
        (raw : Bool) (q : ProductRow),
      q ∈ (processProduct dbPending ext cfg pid2 prid raw).1.products →
      q.status = "pending_review" ∨
        ∃ q0 ∈ dbPending.products, q.status = q0.status) ∧
    (∀ (cats : List Category) (nextId : Nat) (items : List BulkItem)
        (cats2 : List Category) (db2 : Db) (queued : List Nat)
        (q : ProductRow),
      bulkCreateGo cats dbPending nextId items = some (cats2, db2, queued) →
      q ∈ db2.products →
      q ∈ dbPending.products ∨ q.status = "pending" ∨
        q.status = "pending_review")) :=
  ⟨rfl, Or.inl rfl,
   live_rejected_only_via_transition dbPending 1 productPending "live" rfl
     (Or.inl rfl)⟩

end Kivoa
